import Mathlib

/-!
Verification of the thing-commander command-protocol layer.

The definitions below are a shallow embedding of the JavaScript sources
src/app/commander.js and src/app/shell.js (the first revision in each
file, the one the claims reference):

* a model of JSON values, of the serialization performed by JSON.stringify
  and of the parsing performed by JSON.parse (numbers are modelled as
  integers; float syntax is out of the modelled domain and rejected by the
  parser model);
* the Commander object: its session state (request counter, session id,
  topic base string), the private helpers _getNextRequestId and
  _sendPayload, and the public command-encoding operations;
* the Shell command map, the tab-completion closure and the decision made
  by one iteration of the REPL loop.

JavaScript dynamic values that matter to the claims are modelled by
Option String (a string argument or undefined) and by JsArg (the dynamic
argument of sendDataToConnector / updateConnectorConfig).  Thrown errors
are modelled by an error component in the operation result; the spec's
error taxonomy (InvalidArgument, ConfigParseError) labels the two kinds
of throw sites in commander.js.
-/

/-! ## Decimal rendering of numbers (JavaScript number-to-string) -/

/-- The character of a decimal digit (0 le n le 9 gives the digit). -/
def digitCh (n : Nat) : Char := Char.ofNat (48 + n)

/-- The numeric value of a decimal digit character. -/
def digitVal (c : Char) : Nat := c.toNat - 48

/-- Fuel-based most-significant-first decimal digits of n; natCharsAux fuel 0
is empty.  Mirrors the decimal rendering JavaScript applies when a number is
concatenated into a string. -/
def natCharsAux : Nat → Nat → List Char
  | 0, _ => []
  | fuel + 1, n => if n = 0 then [] else natCharsAux fuel (n / 10) ++ [digitCh (n % 10)]

/-- Decimal digit characters of a natural number, no leading zeros. -/
def natChars (n : Nat) : List Char :=
  if n = 0 then [digitCh 0] else natCharsAux (n + 1) n

/-- Decimal rendering of a natural number as a string. -/
def natString (n : Nat) : String := String.mk (natChars n)

/-- Decimal rendering of an integer (minus sign for negatives), as
JSON.stringify renders integral numbers. -/
def intChars (i : Int) : List Char :=
  match i with
  | Int.ofNat n => natChars n
  | Int.negSucc m => '-' :: natChars (m + 1)

/-- Value of a list of decimal digit characters, most significant first. -/
def digitsVal (ds : List Char) : Nat := ds.foldl (fun a c => 10 * a + digitVal c) 0

/-! ## JSON values and JSON.stringify -/

/-- A JSON value.  Object fields are kept in insertion order, matching the
enumeration order JSON.stringify uses for the string-keyed properties of a
JavaScript object literal. -/
inductive Json where
  | null
  | bool (b : Bool)
  | num (n : Int)
  | str (s : String)
  | arr (elems : List Json)
  | obj (fields : List (String × Json))

/-- Hexadecimal digit character (lowercase), used by unicode escapes. -/
def hexDigitCh (n : Nat) : Char :=
  if n < 10 then Char.ofNat (48 + n) else Char.ofNat (87 + n)

/-- JSON.stringify escaping of one character inside a string literal:
quote and backslash get a backslash escape, the control characters with
short escapes use them, the remaining control characters use a \u00xx
escape, and every other character is emitted as itself. -/
def escChar (c : Char) : List Char :=
  if c = '"' then ['\\', '"']
  else if c = '\\' then ['\\', '\\']
  else if c = '\n' then ['\\', 'n']
  else if c = '\r' then ['\\', 'r']
  else if c = '\t' then ['\\', 't']
  else if c.toNat = 8 then ['\\', 'b']
  else if c.toNat = 12 then ['\\', 'f']
  else if c.toNat < 32 then ['\\', 'u', '0', '0', hexDigitCh (c.toNat / 16), hexDigitCh (c.toNat % 16)]
  else [c]

/-- Escape every character of a string body. -/
def escList : List Char → List Char
  | [] => []
  | c :: cs => escChar c ++ escList cs

/-- A JSON string literal: quote, escaped body, quote. -/
def serStrLit (s : String) : List Char := '"' :: escList s.data ++ ['"']

mutual

/-- Characters of the JSON serialization of a value, exactly as
JSON.stringify (no whitespace, fields in insertion order). -/
def serJ : Json → List Char
  | Json.null => ['n', 'u', 'l', 'l']
  | Json.bool true => ['t', 'r', 'u', 'e']
  | Json.bool false => ['f', 'a', 'l', 's', 'e']
  | Json.num i => intChars i
  | Json.str s => serStrLit s
  | Json.arr xs => '[' :: serElems xs ++ [']']
  | Json.obj fs => '{' :: serFields fs ++ ['}']

/-- Comma-separated serializations of array elements. -/
def serElems : List Json → List Char
  | [] => []
  | [x] => serJ x
  | x :: y :: xs => serJ x ++ ',' :: serElems (y :: xs)

/-- Comma-separated key:value serializations of object fields. -/
def serFields : List (String × Json) → List Char
  | [] => []
  | [(k, v)] => serStrLit k ++ ':' :: serJ v
  | (k, v) :: f :: fs => serStrLit k ++ ':' :: serJ v ++ ',' :: serFields (f :: fs)

end

/-- JSON.stringify of a value, as a string. -/
def stringifyJson (j : Json) : String := String.mk (serJ j)

/-! ## JSON.parse -/

/-- JSON whitespace. -/
def isWsCh (c : Char) : Bool := c = ' ' || c = '\t' || c = '\n' || c = '\r'

/-- Skip leading JSON whitespace. -/
def skipWs (cs : List Char) : List Char := cs.dropWhile isWsCh

/-- Value of a hexadecimal digit character, if it is one. -/
def hexVal (c : Char) : Option Nat :=
  if 48 ≤ c.toNat ∧ c.toNat ≤ 57 then some (c.toNat - 48)
  else if 97 ≤ c.toNat ∧ c.toNat ≤ 102 then some (c.toNat - 87)
  else if 65 ≤ c.toNat ∧ c.toNat ≤ 70 then some (c.toNat - 55)
  else none

/-- The character denoted by a single-character JSON escape, if valid. -/
def unescCh (c : Char) : Option Char :=
  if c = '"' then some '"'
  else if c = '\\' then some '\\'
  else if c = '/' then some '/'
  else if c = 'n' then some '\n'
  else if c = 'r' then some '\r'
  else if c = 't' then some '\t'
  else if c = 'b' then some (Char.ofNat 8)
  else if c = 'f' then some (Char.ofNat 12)
  else none

/-- Parse the body of a JSON string literal after its opening quote, up to
and including the closing quote; returns the decoded characters and the
remaining input. -/
def parseStrBody : List Char → Except String (List Char × List Char)
  | [] => .error "Unterminated string in JSON text"
  | c :: rest =>
    if c = '"' then .ok ([], rest)
    else if c = '\\' then
      match rest with
      | [] => .error "Unterminated escape sequence in JSON text"
      | e :: rest2 =>
        if e = 'u' then
          match rest2 with
          | h1 :: h2 :: h3 :: h4 :: rest3 =>
            match hexVal h1, hexVal h2, hexVal h3, hexVal h4 with
            | some v1, some v2, some v3, some v4 =>
              let v := ((v1 * 16 + v2) * 16 + v3) * 16 + v4
              if v.isValidChar then
                match parseStrBody rest3 with
                | .ok (s, r) => .ok (Char.ofNat v :: s, r)
                | .error er => .error er
              else .error "Invalid unicode escape in JSON text"
            | _, _, _, _ => .error "Invalid unicode escape in JSON text"
          | _ => .error "Invalid unicode escape in JSON text"
        else
          match unescCh e with
          | some u =>
            match parseStrBody rest2 with
            | .ok (s, r) => .ok (u :: s, r)
            | .error er => .error er
          | none => .error "Invalid escape character in JSON text"
    else if c.toNat < 32 then .error "Unescaped control character in JSON text"
    else
      match parseStrBody rest with
      | .ok (s, r) => .ok (c :: s, r)
      | .error er => .error er

/-- Parse an unsigned decimal number (the modelled integer fragment of JSON
number syntax; a following fraction or exponent marker is rejected rather
than misread). -/
def parseNumTail (cs : List Char) : Except String (Nat × List Char) :=
  let ds := cs.takeWhile Char.isDigit
  if ds.isEmpty then .error "Invalid number in JSON text"
  else
    let rest := cs.dropWhile Char.isDigit
    match rest with
    | c :: _ =>
      if c = '.' || c = 'e' || c = 'E' then .error "Unsupported number syntax in JSON text"
      else .ok (digitsVal ds, rest)
    | [] => .ok (digitsVal ds, [])

/-- Parse a JSON number (optional minus sign and decimal digits). -/
def parseNum (cs : List Char) : Except String (Json × List Char) :=
  match cs with
  | c :: rest =>
    if c = '-' then
      match parseNumTail rest with
      | .ok (n, r) => .ok (Json.num (-(n : Int)), r)
      | .error e => .error e
    else
      match parseNumTail cs with
      | .ok (n, r) => .ok (Json.num (n : Int), r)
      | .error e => .error e
  | [] => .error "Invalid number in JSON text"

/-- Expect the given literal characters at the head of the input. -/
def expectChars : List Char → List Char → Except String (List Char)
  | [], cs => .ok cs
  | _ :: _, [] => .error "Unexpected end of JSON text"
  | e :: es, c :: cs => if c = e then expectChars es cs else .error "Unexpected token in JSON text"

mutual

/-- Recursive-descent JSON value parser with explicit fuel; every recursive
call spends one unit, so fuel proportional to the input length always
suffices. -/
def parseVal : Nat → List Char → Except String (Json × List Char)
  | 0, _ => .error "JSON text too deeply nested"
  | fuel + 1, cs =>
    match skipWs cs with
    | [] => .error "Unexpected end of JSON text"
    | c :: rest =>
      if c = 'n' then
        match expectChars ['u', 'l', 'l'] rest with
        | .ok r => .ok (Json.null, r)
        | .error e => .error e
      else if c = 't' then
        match expectChars ['r', 'u', 'e'] rest with
        | .ok r => .ok (Json.bool true, r)
        | .error e => .error e
      else if c = 'f' then
        match expectChars ['a', 'l', 's', 'e'] rest with
        | .ok r => .ok (Json.bool false, r)
        | .error e => .error e
      else if c = '"' then
        match parseStrBody rest with
        | .ok (s, r) => .ok (Json.str (String.mk s), r)
        | .error e => .error e
      else if c = '[' then
        match skipWs rest with
        | [] => .error "Unexpected end of JSON text"
        | c2 :: rest2 =>
          if c2 = ']' then .ok (Json.arr [], rest2)
          else
            match parseElemsF fuel (c2 :: rest2) with
            | .ok (xs, r) => .ok (Json.arr xs, r)
            | .error e => .error e
      else if c = '{' then
        match skipWs rest with
        | [] => .error "Unexpected end of JSON text"
        | c2 :: rest2 =>
          if c2 = '}' then .ok (Json.obj [], rest2)
          else
            match parseFieldsF fuel (c2 :: rest2) with
            | .ok (fs, r) => .ok (Json.obj fs, r)
            | .error e => .error e
      else if c = '-' || c.isDigit then parseNum (c :: rest)
      else .error "Unexpected token in JSON text"

/-- Parse the elements of a non-empty JSON array up to and including the
closing bracket. -/
def parseElemsF : Nat → List Char → Except String (List Json × List Char)
  | 0, _ => .error "JSON text too deeply nested"
  | fuel + 1, cs =>
    match parseVal fuel cs with
    | .error e => .error e
    | .ok (j, r) =>
      match skipWs r with
      | [] => .error "Unexpected end of JSON text"
      | c :: r2 =>
        if c = ']' then .ok ([j], r2)
        else if c = ',' then
          match parseElemsF fuel r2 with
          | .ok (xs, r3) => .ok (j :: xs, r3)
          | .error e => .error e
        else .error "Expected comma or closing bracket in JSON text"

/-- Parse the fields of a non-empty JSON object up to and including the
closing brace. -/
def parseFieldsF : Nat → List Char → Except String (List (String × Json) × List Char)
  | 0, _ => .error "JSON text too deeply nested"
  | fuel + 1, cs =>
    match skipWs cs with
    | [] => .error "Unexpected end of JSON text"
    | c :: r1 =>
      if c = '"' then
        match parseStrBody r1 with
        | .error e => .error e
        | .ok (k, r2) =>
          match skipWs r2 with
          | [] => .error "Unexpected end of JSON text"
          | c2 :: r3 =>
            if c2 = ':' then
              match parseVal fuel r3 with
              | .error e => .error e
              | .ok (v, r4) =>
                match skipWs r4 with
                | [] => .error "Unexpected end of JSON text"
                | c3 :: r5 =>
                  if c3 = '}' then .ok ([(String.mk k, v)], r5)
                  else if c3 = ',' then
                    match parseFieldsF fuel r5 with
                    | .ok (fs, r6) => .ok ((String.mk k, v) :: fs, r6)
                    | .error e => .error e
                  else .error "Expected comma or closing brace in JSON text"
            else .error "Expected colon in JSON text"
      else .error "Expected string key in JSON text"

end

/-- JSON.parse: parse one value and require only whitespace after it. -/
def jsonParse (s : String) : Except String Json :=
  match parseVal (2 * s.length + 1) s.data with
  | .ok (j, rest) =>
    if skipWs rest = [] then .ok j else .error "Unexpected trailing characters in JSON text"
  | .error e => .error e

/-! ## The Commander (src/app/commander.js) -/

/-- The state a Commander instance carries: the session id, the outbound
topic base string computed by the constructor
(cloud/username/gateway/), and the request counter. -/
structure Commander where
  sessionId : String
  topicBase : String
  requestCounter : Nat
deriving DecidableEq

/-- The Commander constructor with a caller-supplied session id: the topic
base is cloud/username/gateway/ and the request counter starts at 0. -/
def Commander.make (gateway username sessionId : String) : Commander :=
  { sessionId := sessionId
    topicBase := "cloud/" ++ username ++ "/" ++ gateway ++ "/"
    requestCounter := 0 }

/-- _getNextRequestId: increment the counter, return sessionId::counter. -/
def getNextRequestId (c : Commander) : Commander × String :=
  let n := c.requestCounter + 1
  ({ c with requestCounter := n }, c.sessionId ++ "::" ++ natString n)

/-- One message handed to client.publish. -/
structure Publish where
  topic : String
  message : String
deriving DecidableEq

/-- _sendPayload: requestId = requestId or generated (JavaScript or-falsy,
so an empty string also triggers generation); topic = topic base plus
request id. -/
def sendPayload (c : Commander) (payloadText : String) (requestId : Option String) :
    Commander × Publish :=
  match requestId with
  | some r =>
    if r = "" then
      let (c2, rid) := getNextRequestId c
      (c2, { topic := c.topicBase ++ rid, message := payloadText })
    else (c, { topic := c.topicBase ++ r, message := payloadText })
  | none =>
    let (c2, rid) := getNextRequestId c
    (c2, { topic := c.topicBase ++ rid, message := payloadText })

/-- The spec's taxonomy for the errors commander.js throws before
publishing: argument validation failures and config parse failures. -/
inductive CmdError where
  | invalidArgument (msg : String)
  | configParseError (msg : String)
deriving DecidableEq

/-- Result of one Commander operation: the state afterwards, the messages
published during the call, and the error thrown if any. -/
structure OpOut where
  comm : Commander
  sent : List Publish
  err : Option CmdError
deriving DecidableEq

/-- An operation that throws before publishing leaves the state unchanged
and publishes nothing. -/
def opFail (c : Commander) (e : CmdError) : OpOut := { comm := c, sent := [], err := some e }

/-- An operation that reaches _sendPayload publishes the JSON serialization
of its payload on one topic. -/
def opSend (c : Commander) (payload : Json) (requestId : Option String) : OpOut :=
  let (c2, pub) := sendPayload c (stringifyJson payload) requestId
  { comm := c2, sent := [pub], err := none }

/-- util.format of a string-or-undefined argument. -/
def jsShow : Option String → String
  | none => "undefined"
  | some s => s

/-- The message of the invalid-category throw. -/
def categoryMsg (category : Option String) : String :=
  "Invalid category specified: [" ++ jsShow category ++ "]"

/-- The message of the invalid-id throw. -/
def idMsg (id : Option String) : String :=
  "Invalid id specified: [" ++ jsShow id ++ "]"

/-- A payload field that is dropped by JSON.stringify when its value is
undefined. -/
def optField (name : String) (v : Option Json) : List (String × Json) :=
  match v with
  | some j => [(name, j)]
  | none => []

/-- Common tail of stopConnector / startConnector / restartConnector after
normalization: default the id (JavaScript id or-default, so an empty string
also defaults to all), build the payload and send it.  The three source
functions are textually identical except for the two action strings. -/
def connectorSend (actAll actOne : String) (c : Commander)
    (category id requestId : Option String) : OpOut :=
  let idv :=
    match id with
    | some s => if s = "" then "all" else s
    | none => "all"
  let payload := Json.obj
    (optField "category" (category.map Json.str) ++
     [("action", Json.str (if idv = "all" then actAll else actOne))] ++
     optField "id" (if idv = "all" then none else some (Json.str idv)))
  opSend c payload requestId

/-- The shared body of stopConnector / startConnector / restartConnector:
category "all" is reinterpreted as the id, an id of "all" clears the
category, otherwise the category must be cloud or device. -/
def connectorCommand (actAll actOne : String) (c : Commander)
    (category id requestId : Option String) : OpOut :=
  if category = some "all" then
    connectorSend actAll actOne c none (some "all") requestId
  else if id = some "all" then
    connectorSend actAll actOne c none id requestId
  else if category = some "cloud" ∨ category = some "device" then
    connectorSend actAll actOne c category id requestId
  else opFail c (.invalidArgument (categoryMsg category))

/-- Commander.prototype.stopConnector. -/
def stopConnector (c : Commander) (category id requestId : Option String) : OpOut :=
  connectorCommand "stop_all_connectors" "stop_connector" c category id requestId

/-- Commander.prototype.startConnector. -/
def startConnector (c : Commander) (category id requestId : Option String) : OpOut :=
  connectorCommand "start_all_connectors" "start_connector" c category id requestId

/-- Commander.prototype.restartConnector. -/
def restartConnector (c : Commander) (category id requestId : Option String) : OpOut :=
  connectorCommand "restart_all_connectors" "restart_connector" c category id requestId

/-- Commander.prototype.listConnectors: the category may be undefined,
cloud or device; anything else throws. -/
def listConnectors (c : Commander) (category requestId : Option String) : OpOut :=
  if category ≠ none ∧ category ≠ some "cloud" ∧ category ≠ some "device" then
    opFail c (.invalidArgument (categoryMsg category))
  else
    opSend c
      (Json.obj (optField "category" (category.map Json.str) ++
        [("action", Json.str "list_connectors")]))
      requestId

/-- A dynamically typed JavaScript argument. -/
inductive JsArg where
  | undef
  | null
  | bool (b : Bool)
  | num (n : Int)
  | str (s : String)
  | obj (j : Json)

/-- JavaScript substring(1, length - 1): for length at least 2 this strips
the first and last character; substring clamps its indices to the string
and swaps them when start exceeds end, so a one-character string is
returned whole and an empty string stays empty. -/
def jsStripEnds (s : String) : String :=
  if s.length ≥ 2 then String.mk (s.data.drop 1).dropLast
  else if s.length = 1 then s
  else ""

/-- The single-quote character (code 39) an operator wraps a config or
data argument in at the REPL; the encoder strips one leading and one
trailing character expecting this quoting. -/
def squote : String := String.mk [Char.ofNat 39]

/-- Commander.prototype.sendDataToConnector: category must be cloud or
device, id a non-empty string; the data argument is normalized to a string
following the source if-chain (string of length at least 2: strip first and
last character; falsy: empty string; object: JSON.stringify; any other
truthy value: the two-character brace string). -/
def sendDataToConnector (c : Commander) (category id : Option String) (data : JsArg)
    (requestId : Option String) : OpOut :=
  match category with
  | some cat =>
    if cat = "cloud" ∨ cat = "device" then
      match id with
      | some i =>
        if i = "" then opFail c (.invalidArgument (idMsg id))
        else
          let dataText :=
            match data with
            | .str t => if t.length ≥ 2 then String.mk ((t.data.drop 1).dropLast)
                        else if t = "" then "" else "\x7b\x7d"
            | .undef => ""
            | .null => ""
            | .bool b => if b then "\x7b\x7d" else ""
            | .num n => if n = 0 then "" else "\x7b\x7d"
            | .obj j => stringifyJson j
          opSend c
            (Json.obj [("action", Json.str "send_data"), ("category", Json.str cat),
              ("id", Json.str i), ("data", Json.str dataText)])
            requestId
      | none => opFail c (.invalidArgument (idMsg id))
    else opFail c (.invalidArgument (categoryMsg category))
  | none => opFail c (.invalidArgument (categoryMsg category))

/-- Commander.prototype.sysInfo: the source function takes only the
gateway name (its doc comment mentions a requestId parameter but the
implementation neither declares nor forwards one), so the inner
sendDataToConnector call always generates a fresh request id. -/
def sysInfo (c : Commander) (gatewayname : Option String) : OpOut :=
  match gatewayname with
  | some g =>
    if g = "" then opFail c (.invalidArgument "Invalid gateway name specified (arg #1)")
    else
      sendDataToConnector c (some "device") (some ("cnc-gateway-" ++ g))
        (.obj (Json.obj [("command", Json.str "system_info")])) none
  | none => opFail c (.invalidArgument "Invalid gateway name specified (arg #1)")

/-- Commander.prototype.updateConnectorConfig: category must be cloud or
device, id a non-empty string; a string config is stripped of its first and
last character and parsed as JSON (a parse failure throws before any
publish), a non-null object config passes through, anything else throws. -/
def updateConnectorConfig (c : Commander) (category id : Option String) (config : JsArg)
    (requestId : Option String) : OpOut :=
  match category with
  | some cat =>
    if cat = "cloud" ∨ cat = "device" then
      match id with
      | some i =>
        if i = "" then opFail c (.invalidArgument (idMsg id))
        else
          match config with
          | .str s =>
            match jsonParse (jsStripEnds s) with
            | .ok j =>
              opSend c
                (Json.obj [("action", Json.str "update_config"), ("category", Json.str cat),
                  ("id", Json.str i), ("config", j)])
                requestId
            | .error e =>
              opFail c (.configParseError ("Error parsing configuration: [" ++ e ++ "]"))
          | .obj j =>
            opSend c
              (Json.obj [("action", Json.str "update_config"), ("category", Json.str cat),
                ("id", Json.str i), ("config", j)])
              requestId
          | _ => opFail c (.invalidArgument "Invalid config specified - must be string or object (arg #3)")
      | none => opFail c (.invalidArgument (idMsg id))
    else opFail c (.invalidArgument (categoryMsg category))
  | none => opFail c (.invalidArgument (categoryMsg category))

/-- The provisioning options object of initAgent. -/
structure ProvisionOptions where
  host : Option String
  currentGatewayName : Option String
  newGatewayName : Option String
  username : Option String
  password : Option String
  port : Option String
  protocol : Option String
  networkInterface : Option String
  apiKey : Option String

/-- typeof v === string and v.length > 0. -/
def validStr : Option String → Bool
  | some s => !(s == "")
  | none => false

/-- JavaScript or-default for an optional string option (an empty string is
falsy and also takes the default). -/
def orDefault (v : Option String) (d : String) : String :=
  match v with
  | some s => if s = "" then d else s
  | none => d

/-- The optional sixth provisioning step (Http cloud connector with the api
key header), appended when options.apiKey is a non-empty string. -/
def httpStep (host apiKey : String) : Json :=
  Json.obj [("action", Json.str "update_config"), ("category", Json.str "cloud"),
    ("id", Json.str "http"),
    ("config", Json.obj [("type", Json.str "Http"),
      ("config", Json.obj [("pollFrequency", Json.num 10000),
        ("url", Json.str ("https://" ++ host)),
        ("headers", Json.obj [("apiKey", Json.str apiKey),
          ("content-type", Json.str "application/json")])])])]

/-- The five fixed provisioning steps of initAgent. -/
def initAgentSteps (host current newName username password port protocol netIf : String) :
    List Json :=
  [Json.obj [("action", Json.str "update_config"), ("category", Json.str "cloud"),
     ("id", Json.str ("cnc-cloud-" ++ newName)),
     ("config", Json.obj [("type", Json.str "CncCloud"),
       ("config", Json.obj [("host", Json.str host), ("port", Json.str port),
         ("protocol", Json.str protocol), ("networkInterface", Json.str netIf),
         ("gatewayname", Json.str newName), ("username", Json.str username),
         ("password", Json.str password), ("topics", Json.str "")])])],
   Json.obj [("action", Json.str "update_config"), ("category", Json.str "device"),
     ("id", Json.str ("cnc-gateway-" ++ newName)),
     ("config", Json.obj [("type", Json.str "CncGateway"), ("config", Json.obj [])])],
   Json.obj [("action", Json.str "send_data"), ("category", Json.str "device"),
     ("id", Json.str ("cnc-gateway-" ++ current)),
     ("data", Json.str (stringifyJson (Json.obj [("command", Json.str "disable_local_network")])))],
   Json.obj [("action", Json.str "delete_config"), ("category", Json.str "cloud"),
     ("id", Json.str ("cnc-cloud-" ++ current))],
   Json.obj [("action", Json.str "delete_config"), ("category", Json.str "device"),
     ("id", Json.str ("cnc-gateway-" ++ current))]]

/-- Commander.prototype.initAgent: validate the five required options in
source order, apply the three defaults, build the five-step plan, append
the Http step when an api key is supplied, and publish the whole plan as
one JSON array in one message. -/
def initAgent (c : Commander) (options : ProvisionOptions) (requestId : Option String) : OpOut :=
  if !validStr options.host then
    opFail c (.invalidArgument "Options does not define a valid host (options.host)")
  else if !validStr options.currentGatewayName then
    opFail c (.invalidArgument "Options does not define a valid current gateway name (options.currentGatewayName)")
  else if !validStr options.newGatewayName then
    opFail c (.invalidArgument "Options does not define a valid new gateway name (options.newGatewayName)")
  else if !validStr options.username then
    opFail c (.invalidArgument "Options does not define a valid user name (options.username)")
  else if !validStr options.password then
    opFail c (.invalidArgument "Options does not define a valid password (options.password)")
  else
    let steps := initAgentSteps (options.host.getD "") (options.currentGatewayName.getD "")
      (options.newGatewayName.getD "") (options.username.getD "") (options.password.getD "")
      (orDefault options.port "8443") (orDefault options.protocol "mqtts")
      (orDefault options.networkInterface "eth0")
    let steps := if validStr options.apiKey then steps ++ [httpStep (options.host.getD "") (options.apiKey.getD "")] else steps
    opSend c (Json.arr steps) requestId

/-! ## The Shell (src/app/shell.js) -/

/-- One connector command family: the bare name and its _all, _cloud and
_device variants, in the order _buildCommandMap inserts them. -/
def connectorFamily (name : String) : List String :=
  ["con:" ++ name, "con:" ++ name ++ "_all", "con:" ++ name ++ "_cloud", "con:" ++ name ++ "_device"]

/-- The keys of the command map, in insertion order (string keys of a
JavaScript object enumerate in insertion order). -/
def commandNames : List String :=
  connectorFamily "stop" ++ connectorFamily "start" ++ connectorFamily "restart" ++
  connectorFamily "list" ++
  ["con:send_data", "con:update_config", "con:delete_config", "con:update_type",
   "agent:reset", "agent:terminate", "agent:upgrade", "agent:prov_dev", "agent:prov_prod",
   "con:config_lepton", "sys:info", "sys:reboot"]

/-- One call of the tab-completion closure built by _tabComplete.  The
closure keeps a matches array across calls: an empty input returns the
array as it stands (whatever the previous query left there), a non-empty
input refills it with every command name containing the input as a
substring and returns it.  The result is the pair (new cached matches,
returned list). -/
def tabCompleteStep (cached : List String) (frag : String) : List String × List String :=
  if frag = "" then (cached, cached)
  else
    let ms := commandNames.filter (fun cmd => decide (frag.data <:+: cmd.data))
    (ms, ms)

/-- What one REPL iteration decides to do with a tokenized line. -/
inductive ReplOutcome where
  | blank
  | quit
  | badCommand
  | invoke (cmd : String)
deriving DecidableEq

/-- The decision of one iteration of Shell.prototype._repl on a tokenized
input line: no tokens do nothing; the loop ends when the first token is q
or the SECOND token is quit (the source tests tokens[1] there); otherwise
an unknown first token reports a bad command and a known one invokes its
handler. -/
def replStep (tokens : List String) : ReplOutcome :=
  match tokens with
  | [] => .blank
  | t0 :: rest =>
    if t0 = "q" ∨ rest.head? = some "quit" then .quit
    else if commandNames.contains t0 then .invoke t0
    else .badCommand

/-! ## Derived observations and sequences used by the claims -/

/-- The messages published by an operation, or the error it threw. -/
def opMessages (o : OpOut) : Except CmdError (List String) :=
  match o.err with
  | some e => .error e
  | none => .ok (o.sent.map Publish.message)

/-- The request ids returned by k successive _getNextRequestId calls. -/
def nextRequestIds (c : Commander) : Nat → List String
  | 0 => []
  | k + 1 =>
    let (c2, rid) := getNextRequestId c
    rid :: nextRequestIds c2 k

/-- Run a sequence of _sendPayload calls, none with an explicit request id,
collecting the published messages in order. -/
def runSends (c : Commander) : List String → Commander × List Publish
  | [] => (c, [])
  | p :: ps =>
    let (c2, pub) := sendPayload c p none
    let (c3, pubs) := runSends c2 ps
    (c3, pub :: pubs)

/-! ## Claim-side (specification) functions for refinement comparisons -/

/-- Claim C2 normalization, written from the claim text: category all is
reinterpreted as the id; else an id of all clears the category; else the
category must be cloud or device or the call fails with InvalidArgument
naming the bad category; a missing or empty id defaults to all.  Returns
the category field and the resolved id. -/
def specResolveConnector (category id : Option String) :
    Except CmdError (Option String × String) :=
  if category = some "all" then .ok (none, "all")
  else if id = some "all" then .ok (none, "all")
  else if category = some "cloud" ∨ category = some "device" then
    .ok (category,
      match id with
      | none => "all"
      | some s => if s = "" then "all" else s)
  else .error (.invalidArgument (categoryMsg category))

/-- Claim C2 predicted published messages: one message whose action is the
base verb with _all_connectors when the id resolved to all (id field
absent) and _connector otherwise (id field present), category field present
exactly when not cleared. -/
def specConnectorMessages (actAll actOne : String) (category id : Option String) :
    Except CmdError (List String) :=
  match specResolveConnector category id with
  | .error e => .error e
  | .ok (catF, rid) =>
    .ok [stringifyJson (Json.obj
      (optField "category" (catF.map Json.str) ++
       [("action", Json.str (if rid = "all" then actAll else actOne))] ++
       (if rid = "all" then [] else [("id", Json.str rid)])))]

/-- Claim C7 predicted data field (amended): a string of length at least
two is stripped of one leading and one trailing character, an object is
serialized to JSON text, and an empty or absent value becomes the empty
string. -/
def specSendDataField : JsArg → Option String
  | .str s =>
    if s.length ≥ 2 then some (String.mk ((s.data.drop 1).dropLast))
    else if s = "" then some "" else none
  | .undef => some ""
  | .null => some ""
  | .obj j => some (stringifyJson j)
  | _ => none

/-- Heads that may legally follow a serialized number: used to show the
number parser stops exactly at the end of the rendered digits. -/
def numBoundary (cs : List Char) : Prop :=
  ∀ c, cs.head? = some c → c.isDigit = false ∧ c ≠ '.' ∧ c ≠ 'e' ∧ c ≠ 'E'

/-! ## Lemmas: decimal digits round-trip -/

theorem digitVal_digitCh : ∀ d, d < 10 → digitVal (digitCh d) = d := by decide

theorem isDigit_digitCh : ∀ d, d < 10 → (digitCh d).isDigit = true := by decide

theorem digitsVal_append (xs : List Char) (c : Char) :
    digitsVal (xs ++ [c]) = 10 * digitsVal xs + digitVal c := by
  simp [digitsVal, List.foldl_append]

theorem natCharsAux_isDigit : ∀ fuel n c, c ∈ natCharsAux fuel n → c.isDigit = true := by
  intro fuel
  induction fuel with
  | zero => intro n c h; simp [natCharsAux] at h
  | succ fuel ih =>
    intro n c h
    by_cases hn : n = 0
    · simp [natCharsAux, hn] at h
    · simp only [natCharsAux, hn, if_false, List.mem_append, List.mem_singleton] at h
      rcases h with h | h
      · exact ih _ _ h
      · subst h
        exact isDigit_digitCh _ (Nat.mod_lt _ (by norm_num))

theorem digitsVal_natCharsAux : ∀ fuel n, n ≤ fuel → digitsVal (natCharsAux fuel n) = n := by
  intro fuel
  induction fuel with
  | zero =>
    intro n h
    have : n = 0 := Nat.le_zero.mp h
    simp [natCharsAux, digitsVal, this]
  | succ fuel ih =>
    intro n h
    by_cases hn : n = 0
    · simp [natCharsAux, hn, digitsVal]
    · have hdiv : n / 10 ≤ fuel := by
        have := Nat.div_lt_self (Nat.pos_of_ne_zero hn) (by norm_num : 1 < 10)
        omega
      simp only [natCharsAux, hn, if_false]
      rw [digitsVal_append, ih _ hdiv, digitVal_digitCh _ (Nat.mod_lt _ (by norm_num))]
      omega

theorem digitsVal_natChars (n : Nat) : digitsVal (natChars n) = n := by
  by_cases hn : n = 0
  · subst hn; decide
  · simp only [natChars, hn, if_false]
    exact digitsVal_natCharsAux (n + 1) n (by omega)

theorem natChars_isDigit (n : Nat) : ∀ c ∈ natChars n, c.isDigit = true := by
  intro c hc
  by_cases hn : n = 0
  · subst hn
    simp only [natChars] at hc
    simp at hc
    subst hc
    decide
  · simp only [natChars, hn, if_false] at hc
    exact natCharsAux_isDigit _ _ _ hc

theorem natChars_ne_nil (n : Nat) : natChars n ≠ [] := by
  by_cases hn : n = 0
  · subst hn; decide
  · simp only [natChars, hn, if_false]
    cases hfuel : natCharsAux (n + 1) n with
    | nil =>
      exfalso
      have := digitsVal_natCharsAux (n + 1) n (by omega)
      rw [hfuel] at this
      simp [digitsVal] at this
      exact hn this.symm
    | cons a l => simp

theorem natString_inj {a b : Nat} (h : natString a = natString b) : a = b := by
  have hd : natChars a = natChars b := congrArg String.data h
  have := congrArg digitsVal hd
  rwa [digitsVal_natChars, digitsVal_natChars] at this

/-! ## Lemmas: splitting takeWhile and dropWhile over an append -/

theorem takeWhile_all_append {α : Type} {p : α → Bool} (xs ys : List α)
    (hx : ∀ c ∈ xs, p c = true) (hy : ∀ c, ys.head? = some c → p c = false) :
    (xs ++ ys).takeWhile p = xs ∧ (xs ++ ys).dropWhile p = ys := by
  induction xs with
  | nil =>
    cases ys with
    | nil => simp
    | cons y ys =>
      have := hy y rfl
      simp [List.takeWhile, List.dropWhile, this]
  | cons x xs ih =>
    have hpx := hx x (by simp)
    have ih2 := ih fun c hc => hx c (by simp [hc])
    simp [List.takeWhile, List.dropWhile, hpx, ih2.1, ih2.2]

theorem skipWs_cons {c : Char} (h : isWsCh c = false) (cs : List Char) :
    skipWs (c :: cs) = c :: cs := by
  simp [skipWs, List.dropWhile, h]

/-! ## Lemmas: facts about digit characters -/

theorem isDigit_toNat {c : Char} (h : c.isDigit = true) : 48 ≤ c.toNat ∧ c.toNat ≤ 57 := by
  simp only [Char.isDigit, Bool.and_eq_true, decide_eq_true_eq] at h
  obtain ⟨h1, h2⟩ := h
  exact ⟨h1, h2⟩

theorem toNat_ne {c d : Char} (h : c.toNat ≠ d.toNat) : c ≠ d := fun he => h (congrArg Char.toNat he)

/-! ## Lemmas: JSON string escape round-trip -/

theorem hexVal_hexDigitCh : ∀ n, n < 16 → hexVal (hexDigitCh n) = some n := by decide

theorem isValidChar_toNat (c : Char) : Nat.isValidChar c.toNat := by
  have := c.valid
  rcases this with h | h
  · exact Or.inl h
  · exact Or.inr h

theorem parseStrBody_escList : ∀ (s rest : List Char),
    parseStrBody (escList s ++ '"' :: rest) = .ok (s, rest) := by
  intro s
  induction s with
  | nil =>
    intro rest
    rw [show escList [] ++ '"' :: rest = '"' :: rest from rfl]
    rw [parseStrBody.eq_def]
    simp
  | cons c cs ih =>
    intro rest
    have hstep : escList (c :: cs) ++ '"' :: rest = escChar c ++ (escList cs ++ '"' :: rest) := by
      simp [escList]
    rw [hstep]
    by_cases h1 : c = '"'
    · subst h1
      rw [show escChar '"' = ['\\', '"'] from rfl]
      rw [List.cons_append, List.cons_append, List.nil_append]
      rw [parseStrBody.eq_def]
      simp [unescCh, ih]
    by_cases h2 : c = '\\'
    · subst h2
      rw [show escChar '\\' = ['\\', '\\'] from rfl]
      rw [List.cons_append, List.cons_append, List.nil_append]
      rw [parseStrBody.eq_def]
      simp [unescCh, ih]
    by_cases h3 : c = '\n'
    · subst h3
      rw [show escChar '\n' = ['\\', 'n'] from rfl]
      rw [List.cons_append, List.cons_append, List.nil_append]
      rw [parseStrBody.eq_def]
      simp [unescCh, ih]
    by_cases h4 : c = '\r'
    · subst h4
      rw [show escChar '\r' = ['\\', 'r'] from rfl]
      rw [List.cons_append, List.cons_append, List.nil_append]
      rw [parseStrBody.eq_def]
      simp [unescCh, ih]
    by_cases h5 : c = '\t'
    · subst h5
      rw [show escChar '\t' = ['\\', 't'] from rfl]
      rw [List.cons_append, List.cons_append, List.nil_append]
      rw [parseStrBody.eq_def]
      simp [unescCh, ih]
    by_cases h6 : c.toNat = 8
    · have hc : c = Char.ofNat 8 := by rw [← h6, Char.ofNat_toNat]
      subst hc
      rw [show escChar (Char.ofNat 8) = ['\\', 'b'] from rfl]
      rw [List.cons_append, List.cons_append, List.nil_append]
      rw [parseStrBody.eq_def]
      simp [unescCh, ih]
    by_cases h7 : c.toNat = 12
    · have hc : c = Char.ofNat 12 := by rw [← h7, Char.ofNat_toNat]
      subst hc
      rw [show escChar (Char.ofNat 12) = ['\\', 'f'] from rfl]
      rw [List.cons_append, List.cons_append, List.nil_append]
      rw [parseStrBody.eq_def]
      simp [unescCh, ih]
    by_cases h8 : c.toNat < 32
    · have hesc : escChar c =
          ['\\', 'u', '0', '0', hexDigitCh (c.toNat / 16), hexDigitCh (c.toNat % 16)] := by
        simp [escChar, h1, h2, h3, h4, h5, h6, h7, h8]
      rw [hesc]
      simp only [List.cons_append, List.nil_append]
      rw [parseStrBody.eq_def]
      have hh1 : hexVal (hexDigitCh (c.toNat / 16)) = some (c.toNat / 16) :=
        hexVal_hexDigitCh _ (by omega)
      have hh2 : hexVal (hexDigitCh (c.toNat % 16)) = some (c.toNat % 16) :=
        hexVal_hexDigitCh _ (Nat.mod_lt _ (by norm_num))
      have hv : ((0 * 16 + 0) * 16 + c.toNat / 16) * 16 + c.toNat % 16 = c.toNat := by
        have := Nat.div_add_mod c.toNat 16
        omega
      simp [show hexVal '0' = some 0 from by decide, hh1, hh2, hv,
        isValidChar_toNat c, Char.ofNat_toNat, ih]
      have hv2 : c.toNat / 16 * 16 + c.toNat % 16 = c.toNat := by
        have := Nat.div_add_mod c.toNat 16
        omega
      rw [hv2, if_pos (isValidChar_toNat c), Char.ofNat_toNat]
    · have hesc : escChar c = [c] := by
        simp [escChar, h1, h2, h3, h4, h5, h6, h7, h8]
      rw [hesc]
      simp only [List.cons_append, List.nil_append]
      rw [parseStrBody.eq_def]
      simp [h1, h2, h8, ih]

/-! ## Lemmas: number parsing round-trip -/

theorem parseNumTail_natChars (n : Nat) (rest : List Char) (hb : numBoundary rest) :
    parseNumTail (natChars n ++ rest) = .ok (n, rest) := by
  obtain ⟨ht, hd⟩ := takeWhile_all_append (natChars n) rest (natChars_isDigit n)
    (fun c hc => (hb c hc).1)
  have hne : (natChars n).isEmpty = false := by
    obtain ⟨d, ds, hds⟩ := List.exists_cons_of_ne_nil (natChars_ne_nil n)
    rw [hds]
    rfl
  rw [parseNumTail]
  simp only [ht, hd, hne, Bool.false_eq_true, if_false]
  cases hr : rest with
  | nil => simp [digitsVal_natChars]
  | cons c rest2 =>
    have := hb c (by rw [hr]; rfl)
    simp [this.2.1, this.2.2.1, this.2.2.2, digitsVal_natChars]

theorem isDigit_facts {c : Char} (h : c.isDigit = true) :
    c ≠ '-' ∧ c ≠ 'n' ∧ c ≠ 't' ∧ c ≠ 'f' ∧ c ≠ '"' ∧ c ≠ '[' ∧ c ≠ '{' ∧ c ≠ ']' ∧
    c ≠ '}' ∧ c ≠ ',' ∧ isWsCh c = false := by
  obtain ⟨hl, hu⟩ := isDigit_toNat h
  have hsp : c ≠ ' ' := toNat_ne (by rw [show (' ' : Char).toNat = 32 from rfl]; omega)
  have htb : c ≠ '\t' := toNat_ne (by rw [show ('\t' : Char).toNat = 9 from rfl]; omega)
  have hnl : c ≠ '\n' := toNat_ne (by rw [show ('\n' : Char).toNat = 10 from rfl]; omega)
  have hcr : c ≠ '\r' := toNat_ne (by rw [show ('\r' : Char).toNat = 13 from rfl]; omega)
  refine ⟨toNat_ne (by rw [show ('-' : Char).toNat = 45 from rfl]; omega),
    toNat_ne (by rw [show ('n' : Char).toNat = 110 from rfl]; omega),
    toNat_ne (by rw [show ('t' : Char).toNat = 116 from rfl]; omega),
    toNat_ne (by rw [show ('f' : Char).toNat = 102 from rfl]; omega),
    toNat_ne (by rw [show ('"' : Char).toNat = 34 from rfl]; omega),
    toNat_ne (by rw [show ('[' : Char).toNat = 91 from rfl]; omega),
    toNat_ne (by rw [show ('{' : Char).toNat = 123 from rfl]; omega),
    toNat_ne (by rw [show (']' : Char).toNat = 93 from rfl]; omega),
    toNat_ne (by rw [show ('}' : Char).toNat = 125 from rfl]; omega),
    toNat_ne (by rw [show (',' : Char).toNat = 44 from rfl]; omega), ?_⟩
  simp [isWsCh, hsp, htb, hnl, hcr]

theorem parseNum_intChars (i : Int) (rest : List Char) (hb : numBoundary rest) :
    parseNum (intChars i ++ rest) = .ok (Json.num i, rest) := by
  cases i with
  | ofNat n =>
    obtain ⟨d, ds, hds⟩ := List.exists_cons_of_ne_nil (natChars_ne_nil n)
    have hdig : d.isDigit = true := natChars_isDigit n d (by rw [hds]; simp)
    have hfacts := isDigit_facts hdig
    rw [show intChars (Int.ofNat n) = natChars n from rfl, hds, List.cons_append,
      parseNum]
    rw [if_neg hfacts.1, ← List.cons_append, ← hds, parseNumTail_natChars n rest hb]
    rfl
  | negSucc m =>
    rw [show intChars (Int.negSucc m) = '-' :: natChars (m + 1) from rfl, List.cons_append,
      parseNum]
    rw [if_pos rfl, parseNumTail_natChars (m + 1) rest hb]
    have hneg : (-(↑(m + 1) : Int)) = Int.negSucc m := by rw [Int.negSucc_eq]; push_cast; ring
    show Except.ok (Json.num (-(↑(m + 1) : Int)), rest) = Except.ok (Json.num (Int.negSucc m), rest)
    rw [hneg]

/-! ## Lemmas: the serializer-parser round trip -/

theorem stringMk_data (s : String) : String.mk s.data = s := rfl

theorem numBoundary_cons {c0 : Char}
    (h : c0.isDigit = false ∧ c0 ≠ '.' ∧ c0 ≠ 'e' ∧ c0 ≠ 'E') (cs : List Char) :
    numBoundary (c0 :: cs) := by
  intro c hc
  simp only [List.head?_cons, Option.some.injEq] at hc
  subst hc
  exact h

theorem serJ_head (j : Json) :
    ∃ c cs, serJ j = c :: cs ∧ isWsCh c = false ∧ c ≠ ']' ∧ c ≠ '}' := by
  cases j with
  | num i =>
    cases i with
    | ofNat n =>
      obtain ⟨d, ds, hds⟩ := List.exists_cons_of_ne_nil (natChars_ne_nil n)
      have hdg : d.isDigit = true := natChars_isDigit n d (by rw [hds]; simp)
      obtain ⟨_, _, _, _, _, _, _, f8, f9, _, f11⟩ := isDigit_facts hdg
      exact ⟨d, ds, by rw [show serJ (Json.num (Int.ofNat n)) = natChars n from rfl, hds],
        f11, f8, f9⟩
    | negSucc m => exact ⟨'-', natChars (m + 1), rfl, by decide⟩
  | bool b => cases b with
    | true => exact ⟨'t', _, rfl, by decide⟩
    | false => exact ⟨'f', _, rfl, by decide⟩
  | null => exact ⟨'n', _, rfl, by decide⟩
  | str s => exact ⟨'"', escList s.data ++ ['"'], rfl, by decide⟩
  | arr xs => exact ⟨'[', serElems xs ++ [']'], rfl, by decide⟩
  | obj fs => exact ⟨'{', serFields fs ++ ['}'], rfl, by decide⟩

theorem serJ_len_pos (j : Json) : 1 ≤ (serJ j).length := by
  obtain ⟨c, cs, h, _⟩ := serJ_head j
  rw [h]
  simp

theorem serStrLit_append (k : String) (X : List Char) :
    serStrLit k ++ X = '"' :: (escList k.data ++ '"' :: X) := by
  simp [serStrLit]

theorem parseSer : ∀ fuel : Nat,
    (∀ j rest, 2 * (serJ j).length ≤ fuel → numBoundary rest →
      parseVal fuel (serJ j ++ rest) = .ok (j, rest)) ∧
    (∀ xs rest, xs ≠ [] → 2 * (serElems xs).length + 1 ≤ fuel →
      parseElemsF fuel (serElems xs ++ ']' :: rest) = .ok (xs, rest)) ∧
    (∀ fs rest, fs ≠ [] → 2 * (serFields fs).length + 1 ≤ fuel →
      parseFieldsF fuel (serFields fs ++ '}' :: rest) = .ok (fs, rest)) := by
  intro fuel
  induction fuel with
  | zero =>
    refine ⟨?_, ?_, ?_⟩
    · intro j rest hf _
      have := serJ_len_pos j
      omega
    · intro xs rest _ hf
      omega
    · intro fs rest _ hf
      omega
  | succ fuel ih =>
    obtain ⟨ihV, ihE, ihF⟩ := ih
    refine ⟨?_, ?_, ?_⟩
    · -- parseVal on a serialized value
      intro j rest hf hb
      cases j with
      | null => rfl
      | bool b => cases b <;> rfl
      | num i =>
        cases i with
        | ofNat n =>
          obtain ⟨d, ds, hds⟩ := List.exists_cons_of_ne_nil (natChars_ne_nil n)
          have hdg : d.isDigit = true := natChars_isDigit n d (by rw [hds]; simp)
          obtain ⟨f1, f2, f3, f4, f5, f6, f7, _, _, _, f11⟩ := isDigit_facts hdg
          rw [parseVal, show serJ (Json.num (Int.ofNat n)) = natChars n from rfl, hds,
            List.cons_append, skipWs_cons f11]
          simp only [if_neg f2, if_neg f3, if_neg f4, if_neg f5, if_neg f6, if_neg f7]
          rw [if_pos (by simp [hdg])]
          rw [← List.cons_append, ← hds,
            show natChars n ++ rest = intChars (Int.ofNat n) ++ rest from rfl,
            parseNum_intChars _ _ hb]
        | negSucc m =>
          rw [parseVal, show serJ (Json.num (Int.negSucc m)) = '-' :: natChars (m + 1) from rfl,
            List.cons_append, skipWs_cons (by decide)]
          simp only [if_neg (by decide : ¬('-' : Char) = 'n'),
            if_neg (by decide : ¬('-' : Char) = 't'), if_neg (by decide : ¬('-' : Char) = 'f'),
            if_neg (by decide : ¬('-' : Char) = '"'), if_neg (by decide : ¬('-' : Char) = '['),
            if_neg (by decide : ¬('-' : Char) = '{')]
          rw [if_pos (by simp)]
          rw [← List.cons_append,
            show '-' :: natChars (m + 1) ++ rest = intChars (Int.negSucc m) ++ rest from rfl,
            parseNum_intChars _ _ hb]
      | str s =>
        rw [parseVal, show serJ (Json.str s) = serStrLit s from rfl, serStrLit_append,
          skipWs_cons (by decide)]
        simp only [if_neg (by decide : ¬('"' : Char) = 'n'),
          if_neg (by decide : ¬('"' : Char) = 't'), if_neg (by decide : ¬('"' : Char) = 'f'),
          if_pos (rfl : ('"' : Char) = '"')]
        rw [parseStrBody_escList]
        rfl
      | arr xs =>
        cases xs with
        | nil => rfl
        | cons x t =>
          obtain ⟨cx, csx, hx, hwx, hxr, _⟩ := serJ_head x
          obtain ⟨T, hT⟩ : ∃ T, serElems (x :: t) = serJ x ++ T := by
            cases t with
            | nil => exact ⟨[], by simp [serElems]⟩
            | cons y t2 => exact ⟨',' :: serElems (y :: t2), rfl⟩
          have hlen : (serJ (Json.arr (x :: t))).length = (serElems (x :: t)).length + 2 := by
            rw [show serJ (Json.arr (x :: t)) = '[' :: (serElems (x :: t) ++ [']']) from rfl]
            simp
          have hsplit : serJ (Json.arr (x :: t)) ++ rest =
              '[' :: (serElems (x :: t) ++ ']' :: rest) := by
            rw [show serJ (Json.arr (x :: t)) = '[' :: (serElems (x :: t) ++ [']']) from rfl]
            simp
          have heq : serElems (x :: t) ++ ']' :: rest = cx :: (csx ++ (T ++ ']' :: rest)) := by
            rw [hT, hx]
            simp
          rw [parseVal, hsplit, skipWs_cons (by decide)]
          simp only [if_neg (by decide : ¬('[' : Char) = 'n'),
            if_neg (by decide : ¬('[' : Char) = 't'), if_neg (by decide : ¬('[' : Char) = 'f'),
            if_neg (by decide : ¬('[' : Char) = '"'), if_pos (rfl : ('[' : Char) = '[')]
          rw [heq, skipWs_cons hwx]
          simp only [if_neg hxr]
          rw [← heq, ihE (x :: t) rest (by simp) (by omega)]
          rfl
      | obj fs =>
        cases fs with
        | nil => rfl
        | cons kv t =>
          obtain ⟨k, v⟩ := kv
          obtain ⟨T, hT⟩ : ∃ T, serFields ((k, v) :: t) = '"' :: T := by
            cases t with
            | nil =>
              exact ⟨escList k.data ++ '"' :: (':' :: serJ v), by
                rw [show serFields [(k, v)] = serStrLit k ++ ':' :: serJ v from rfl,
                  serStrLit_append]⟩
            | cons f2 t2 =>
              exact ⟨escList k.data ++ '"' :: (':' :: (serJ v ++ ',' :: serFields (f2 :: t2))), by
                rw [show serFields ((k, v) :: f2 :: t2) =
                  serStrLit k ++ ':' :: serJ v ++ ',' :: serFields (f2 :: t2) from rfl]
                rw [serStrLit_append]
                simp⟩
          have hlen : (serJ (Json.obj ((k, v) :: t))).length =
              (serFields ((k, v) :: t)).length + 2 := by
            rw [show serJ (Json.obj ((k, v) :: t)) =
              '{' :: (serFields ((k, v) :: t) ++ ['}']) from rfl]
            simp
          have hsplit : serJ (Json.obj ((k, v) :: t)) ++ rest =
              '{' :: (serFields ((k, v) :: t) ++ '}' :: rest) := by
            rw [show serJ (Json.obj ((k, v) :: t)) =
              '{' :: (serFields ((k, v) :: t) ++ ['}']) from rfl]
            simp
          have heq : serFields ((k, v) :: t) ++ '}' :: rest = '"' :: (T ++ '}' :: rest) := by
            rw [hT]
            rfl
          rw [parseVal, hsplit, skipWs_cons (by decide)]
          simp only [if_neg (by decide : ¬('{' : Char) = 'n'),
            if_neg (by decide : ¬('{' : Char) = 't'), if_neg (by decide : ¬('{' : Char) = 'f'),
            if_neg (by decide : ¬('{' : Char) = '"'), if_neg (by decide : ¬('{' : Char) = '['),
            if_pos (rfl : ('{' : Char) = '{')]
          rw [heq, skipWs_cons (by decide)]
          simp only [if_neg (by decide : ¬('"' : Char) = '}')]
          rw [← heq, ihF ((k, v) :: t) rest (by simp) (by omega)]
          rfl
    · -- parseElemsF on serialized elements
      intro xs rest hne hf
      cases xs with
      | nil => exact absurd rfl hne
      | cons x t =>
        rw [parseElemsF]
        cases t with
        | nil =>
          have hlen : serElems [x] = serJ x := by simp [serElems]
          rw [hlen]
          rw [ihV x (']' :: rest) (by rw [hlen] at hf; omega)
            (numBoundary_cons (by decide) rest)]
          rfl
        | cons y t2 =>
          have hlen : (serElems (x :: y :: t2)).length =
              (serJ x).length + 1 + (serElems (y :: t2)).length := by
            rw [show serElems (x :: y :: t2) = serJ x ++ ',' :: serElems (y :: t2) from rfl]
            simp
            omega
          have hpos := serJ_len_pos x
          have hcs : serElems (x :: y :: t2) ++ ']' :: rest =
              serJ x ++ (',' :: (serElems (y :: t2) ++ ']' :: rest)) := by
            rw [show serElems (x :: y :: t2) = serJ x ++ ',' :: serElems (y :: t2) from rfl]
            simp
          rw [hcs]
          rw [ihV x (',' :: (serElems (y :: t2) ++ ']' :: rest)) (by omega)
            (numBoundary_cons (by decide) _)]
          simp only []
          rw [skipWs_cons (by decide)]
          simp only [if_neg (by decide : ¬(',' : Char) = ']'), if_pos (rfl : (',' : Char) = ',')]
          rw [ihE (y :: t2) rest (by simp) (by omega)]
          rfl
    · -- parseFieldsF on serialized fields
      intro fs rest hne hf
      cases fs with
      | nil => exact absurd rfl hne
      | cons kv t =>
        obtain ⟨k, v⟩ := kv
        rw [parseFieldsF]
        have hklen : (serStrLit k).length = (escList k.data).length + 2 := by
          simp [serStrLit]
        cases t with
        | nil =>
          have hlen : (serFields [(k, v)]).length = (serStrLit k).length + 1 + (serJ v).length := by
            rw [show serFields [(k, v)] = serStrLit k ++ ':' :: serJ v from rfl]
            simp
            omega
          have hcs : serFields [(k, v)] ++ '}' :: rest =
              '"' :: (escList k.data ++ '"' :: (':' :: (serJ v ++ '}' :: rest))) := by
            rw [show serFields [(k, v)] = serStrLit k ++ ':' :: serJ v from rfl, serStrLit_append]
            simp
          rw [hcs, skipWs_cons (by decide)]
          simp only [if_pos (rfl : ('"' : Char) = '"')]
          rw [parseStrBody_escList]
          simp only []
          rw [skipWs_cons (by decide)]
          simp only [if_pos (rfl : (':' : Char) = ':')]
          rw [ihV v ('}' :: rest) (by omega) (numBoundary_cons (by decide) rest)]
          rfl
        | cons f2 t2 =>
          have hlen : (serFields ((k, v) :: f2 :: t2)).length =
              (serStrLit k).length + 1 + (serJ v).length + 1 + (serFields (f2 :: t2)).length := by
            rw [show serFields ((k, v) :: f2 :: t2) =
              serStrLit k ++ ':' :: serJ v ++ ',' :: serFields (f2 :: t2) from rfl]
            simp
            omega
          have hvpos := serJ_len_pos v
          have hcs : serFields ((k, v) :: f2 :: t2) ++ '}' :: rest =
              '"' :: (escList k.data ++ '"' :: (':' ::
                (serJ v ++ ',' :: (serFields (f2 :: t2) ++ '}' :: rest)))) := by
            rw [show serFields ((k, v) :: f2 :: t2) =
              serStrLit k ++ ':' :: serJ v ++ ',' :: serFields (f2 :: t2) from rfl, serStrLit_append]
            simp
          rw [hcs, skipWs_cons (by decide)]
          simp only [if_pos (rfl : ('"' : Char) = '"')]
          rw [parseStrBody_escList]
          simp only []
          rw [skipWs_cons (by decide)]
          simp only [if_pos (rfl : (':' : Char) = ':')]
          rw [ihV v (',' :: (serFields (f2 :: t2) ++ '}' :: rest)) (by omega)
            (numBoundary_cons (by decide) _)]
          simp only []
          rw [skipWs_cons (by decide)]
          simp only [if_neg (by decide : ¬(',' : Char) = '}'), if_pos (rfl : (',' : Char) = ',')]
          rw [ihF (f2 :: t2) rest (by simp) (by omega)]
          rfl

theorem jsonParse_stringify (j : Json) : jsonParse (stringifyJson j) = .ok j := by
  rw [jsonParse]
  have hlen : (stringifyJson j).length = (serJ j).length := rfl
  have hdata : (stringifyJson j).data = serJ j := rfl
  have h := (parseSer (2 * (stringifyJson j).length + 1)).1 j []
    (by rw [hlen]; omega) (by intro c hc; simp at hc)
  rw [List.append_nil] at h
  rw [hdata, h]
  rfl

/-! ## Lemmas: publishing operations -/

theorem opSend_messages (c : Commander) (p : Json) (rid : Option String) :
    (opSend c p rid).sent.map Publish.message = [stringifyJson p] ∧
    (opSend c p rid).err = none := by
  unfold opSend sendPayload
  cases rid with
  | none => exact ⟨rfl, rfl⟩
  | some r =>
    by_cases h : r = ""
    · simp [h]
    · simp [h]

theorem opMessages_opSend (c : Commander) (p : Json) (rid : Option String) :
    opMessages (opSend c p rid) = .ok [stringifyJson p] := by
  have h := opSend_messages c p rid
  unfold opMessages
  rw [h.2, h.1]

theorem jsStripEnds_wrap (s : String) : jsStripEnds (squote ++ s ++ squote) = s := by
  have hdata : (squote ++ s ++ squote).data = Char.ofNat 39 :: (s.data ++ [Char.ofNat 39]) := by
    simp [squote, String.data_append]
  have hlen : (squote ++ s ++ squote).length = s.length + 2 := by
    have h0 : (squote ++ s ++ squote).length = (squote ++ s ++ squote).data.length := rfl
    have h1 : s.length = s.data.length := rfl
    rw [h0, hdata, h1]
    simp
  rw [jsStripEnds, if_pos (by omega)]
  rw [hdata]
  simp only [List.drop_succ_cons, List.drop_zero, List.dropLast_concat]

/-! ## Lemmas: connector command normalization matches the claim text -/

theorem connectorCommand_spec (actAll actOne : String) (c : Commander)
    (category id rid : Option String) :
    opMessages (connectorCommand actAll actOne c category id rid) =
      specConnectorMessages actAll actOne category id := by
  by_cases h1 : category = some "all"
  · simp [connectorCommand, specConnectorMessages, specResolveConnector, connectorSend, h1,
      opMessages_opSend, optField]
  · by_cases h2 : id = some "all"
    · simp [connectorCommand, specConnectorMessages, specResolveConnector, connectorSend, h1, h2,
        opMessages_opSend, optField]
    · by_cases h3 : category = some "cloud" ∨ category = some "device"
      · cases id with
        | none =>
          simp [connectorCommand, specConnectorMessages, specResolveConnector,
            connectorSend, h1, h2, h3, opMessages_opSend, optField]
        | some s =>
          by_cases hs : s = ""
          · simp [connectorCommand, specConnectorMessages, specResolveConnector,
              connectorSend, h1, h2, h3, hs, opMessages_opSend, optField]
          · have hsa : s ≠ "all" := by
              intro he
              exact h2 (by rw [he])
            simp [connectorCommand, specConnectorMessages, specResolveConnector,
              connectorSend, h1, h2, h3, hs, hsa, opMessages_opSend, optField]
      · simp [connectorCommand, specConnectorMessages, specResolveConnector, h1, h2, h3,
          opMessages, opFail]

/-! ## Lemmas: request id sequencing -/

theorem nextRequestIds_eq : ∀ (k : Nat) (c : Commander),
    nextRequestIds c k =
      (List.range k).map (fun i => c.sessionId ++ "::" ++ natString (c.requestCounter + i + 1)) := by
  intro k
  induction k with
  | zero => intro c; rfl
  | succ k ih =>
    intro c
    rw [nextRequestIds]
    simp only [getNextRequestId]
    rw [ih]
    rw [List.range_succ_eq_map, List.map_cons, List.map_map]
    refine congrArg₂ List.cons rfl
      (congrArg (fun f => List.map f (List.range k)) (funext fun a => ?_))
    show c.sessionId ++ "::" ++ natString (c.requestCounter + 1 + a + 1) =
      c.sessionId ++ "::" ++ natString (c.requestCounter + (a + 1) + 1)
    have ha : c.requestCounter + 1 + a + 1 = c.requestCounter + (a + 1) + 1 := by omega
    rw [ha]

theorem runSends_topics : ∀ (ps : List String) (c : Commander),
    (runSends c ps).2.map Publish.topic =
      (List.range ps.length).map
        (fun i => c.topicBase ++ (c.sessionId ++ "::" ++ natString (c.requestCounter + i + 1))) := by
  intro ps
  induction ps with
  | nil => intro c; rfl
  | cons p ps ih =>
    intro c
    rw [runSends]
    simp only [sendPayload, getNextRequestId, List.map_cons]
    rw [ih]
    simp only [List.length_cons, List.range_succ_eq_map, List.map_cons, List.map_map]
    refine congrArg₂ List.cons rfl
      (congrArg (fun f => List.map f (List.range ps.length)) (funext fun a => ?_))
    show c.topicBase ++ (c.sessionId ++ "::" ++ natString (c.requestCounter + 1 + a + 1)) =
      c.topicBase ++ (c.sessionId ++ "::" ++ natString (c.requestCounter + (a + 1) + 1))
    have ha : c.requestCounter + 1 + a + 1 = c.requestCounter + (a + 1) + 1 := by omega
    rw [ha]

theorem requestId_inj (sid : String) :
    Function.Injective (fun i : Nat => sid ++ "::" ++ natString (i + 1)) := by
  intro a b h
  have hd : (sid ++ "::").data ++ natChars (a + 1) = (sid ++ "::").data ++ natChars (b + 1) := by
    have h2 := congrArg String.data h
    simpa [String.data_append] using h2
  have h3 := congrArg digitsVal (List.append_cancel_left hd)
  rw [digitsVal_natChars, digitsVal_natChars] at h3
  omega

theorem opSend_sent_length (c : Commander) (p : Json) (rid : Option String) :
    (opSend c p rid).sent.length = 1 := by
  unfold opSend sendPayload
  cases rid with
  | none => rfl
  | some r =>
    by_cases h : r = ""
    · simp [h]
    · simp [h]

/-! ## The claims -/

/-- Claim C1: for every options object accepted by initAgent, the published
provisioning plan is one JSON array sent as one message, whose steps sit at
fixed indices: 0 creates the CncCloud config cnc-cloud-new, 1 creates the
CncGateway config cnc-gateway-new, 2 sends disable_local_network to
cnc-gateway-current, 3 deletes cnc-cloud-current, 4 deletes
cnc-gateway-current, and an Http step with id http sits at index 5 exactly
when options.apiKey is a non-empty string. -/
theorem c1_initAgent_plan (c : Commander) (opts : ProvisionOptions) (rid : Option String)
    (hh : validStr opts.host = true) (hcur : validStr opts.currentGatewayName = true)
    (hnew : validStr opts.newGatewayName = true) (hu : validStr opts.username = true)
    (hp : validStr opts.password = true) :
    ∃ steps : List Json,
      (initAgent c opts rid).err = none ∧
      (initAgent c opts rid).sent.map Publish.message = [stringifyJson (Json.arr steps)] ∧
      (initAgent c opts rid).sent.length = 1 ∧
      steps[0]? = some (Json.obj [("action", Json.str "update_config"),
        ("category", Json.str "cloud"),
        ("id", Json.str ("cnc-cloud-" ++ opts.newGatewayName.getD "")),
        ("config", Json.obj [("type", Json.str "CncCloud"),
          ("config", Json.obj [("host", Json.str (opts.host.getD "")),
            ("port", Json.str (orDefault opts.port "8443")),
            ("protocol", Json.str (orDefault opts.protocol "mqtts")),
            ("networkInterface", Json.str (orDefault opts.networkInterface "eth0")),
            ("gatewayname", Json.str (opts.newGatewayName.getD "")),
            ("username", Json.str (opts.username.getD "")),
            ("password", Json.str (opts.password.getD "")),
            ("topics", Json.str "")])])]) ∧
      steps[1]? = some (Json.obj [("action", Json.str "update_config"),
        ("category", Json.str "device"),
        ("id", Json.str ("cnc-gateway-" ++ opts.newGatewayName.getD "")),
        ("config", Json.obj [("type", Json.str "CncGateway"), ("config", Json.obj [])])]) ∧
      steps[2]? = some (Json.obj [("action", Json.str "send_data"),
        ("category", Json.str "device"),
        ("id", Json.str ("cnc-gateway-" ++ opts.currentGatewayName.getD "")),
        ("data", Json.str (stringifyJson
          (Json.obj [("command", Json.str "disable_local_network")])))]) ∧
      steps[3]? = some (Json.obj [("action", Json.str "delete_config"),
        ("category", Json.str "cloud"),
        ("id", Json.str ("cnc-cloud-" ++ opts.currentGatewayName.getD ""))]) ∧
      steps[4]? = some (Json.obj [("action", Json.str "delete_config"),
        ("category", Json.str "device"),
        ("id", Json.str ("cnc-gateway-" ++ opts.currentGatewayName.getD ""))]) ∧
      (validStr opts.apiKey = true →
        steps.length = 6 ∧
        steps[5]? = some (Json.obj [("action", Json.str "update_config"),
          ("category", Json.str "cloud"), ("id", Json.str "http"),
          ("config", Json.obj [("type", Json.str "Http"),
            ("config", Json.obj [("pollFrequency", Json.num 10000),
              ("url", Json.str ("https://" ++ opts.host.getD "")),
              ("headers", Json.obj [("apiKey", Json.str (opts.apiKey.getD "")),
                ("content-type", Json.str "application/json")])])])])) ∧
      (validStr opts.apiKey = false → steps.length = 5) := by
  by_cases hapi : validStr opts.apiKey = true
  · have hrun : initAgent c opts rid = opSend c (Json.arr
        (initAgentSteps (opts.host.getD "") (opts.currentGatewayName.getD "")
          (opts.newGatewayName.getD "") (opts.username.getD "") (opts.password.getD "")
          (orDefault opts.port "8443") (orDefault opts.protocol "mqtts")
          (orDefault opts.networkInterface "eth0") ++
         [httpStep (opts.host.getD "") (opts.apiKey.getD "")])) rid := by
      rw [initAgent]
      simp [hh, hcur, hnew, hu, hp, hapi]
    refine ⟨initAgentSteps (opts.host.getD "") (opts.currentGatewayName.getD "")
        (opts.newGatewayName.getD "") (opts.username.getD "") (opts.password.getD "")
        (orDefault opts.port "8443") (orDefault opts.protocol "mqtts")
        (orDefault opts.networkInterface "eth0") ++
        [httpStep (opts.host.getD "") (opts.apiKey.getD "")],
      ?_, ?_, ?_, ?_, ?_, ?_, ?_, ?_, ?_, ?_⟩
    · rw [hrun]; exact (opSend_messages _ _ _).2
    · rw [hrun]; exact (opSend_messages _ _ _).1
    · rw [hrun]; exact opSend_sent_length _ _ _
    · rfl
    · rfl
    · rfl
    · rfl
    · rfl
    · exact fun _ => ⟨rfl, rfl⟩
    · intro hfalse
      rw [hapi] at hfalse
      cases hfalse
  · have hapi2 : validStr opts.apiKey = false := by
      cases h : validStr opts.apiKey with
      | true => exact absurd h hapi
      | false => rfl
    have hrun : initAgent c opts rid = opSend c (Json.arr
        (initAgentSteps (opts.host.getD "") (opts.currentGatewayName.getD "")
          (opts.newGatewayName.getD "") (opts.username.getD "") (opts.password.getD "")
          (orDefault opts.port "8443") (orDefault opts.protocol "mqtts")
          (orDefault opts.networkInterface "eth0"))) rid := by
      rw [initAgent]
      simp [hh, hcur, hnew, hu, hp, hapi2]
    refine ⟨initAgentSteps (opts.host.getD "") (opts.currentGatewayName.getD "")
        (opts.newGatewayName.getD "") (opts.username.getD "") (opts.password.getD "")
        (orDefault opts.port "8443") (orDefault opts.protocol "mqtts")
        (orDefault opts.networkInterface "eth0"),
      ?_, ?_, ?_, ?_, ?_, ?_, ?_, ?_, ?_, ?_⟩
    · rw [hrun]; exact (opSend_messages _ _ _).2
    · rw [hrun]; exact (opSend_messages _ _ _).1
    · rw [hrun]; exact opSend_sent_length _ _ _
    · rfl
    · rfl
    · rfl
    · rfl
    · rfl
    · intro htrue
      rw [hapi2] at htrue
      cases htrue
    · exact fun _ => rfl

/-- Witness for C1 at a concrete accepted options object: the plan is
published without error. -/
theorem c1_initAgent_plan_witness :
    (initAgent (Commander.make "gw" "user" "sess")
      ⟨some "host.example", some "oldgw", some "newgw", some "user", some "pw",
        none, none, none, some "key"⟩ none).err = none := by
  obtain ⟨_, h, _⟩ := c1_initAgent_plan (Commander.make "gw" "user" "sess")
    ⟨some "host.example", some "oldgw", some "newgw", some "user", some "pw",
      none, none, none, some "key"⟩ none rfl rfl rfl rfl rfl
  exact h

/-- Claim C2 (amended: a missing OR EMPTY id defaults to all, since the
source uses the falsy-or idiom): stop, start and restart normalize their
category and id exactly as the claim describes, captured by the
specification-side function specConnectorMessages written from the claim
text. -/
theorem c2_connector_normalization (c : Commander) (category id requestId : Option String) :
    opMessages (stopConnector c category id requestId) =
      specConnectorMessages "stop_all_connectors" "stop_connector" category id ∧
    opMessages (startConnector c category id requestId) =
      specConnectorMessages "start_all_connectors" "start_connector" category id ∧
    opMessages (restartConnector c category id requestId) =
      specConnectorMessages "restart_all_connectors" "restart_connector" category id :=
  ⟨connectorCommand_spec _ _ c category id requestId,
   connectorCommand_spec _ _ c category id requestId,
   connectorCommand_spec _ _ c category id requestId⟩

/-- Counterexample to C2 as frozen: with category cloud and the EMPTY
string as id, the claim predicts action stop_connector with the id field
present, but the source defaults the falsy empty id to all and emits
stop_all_connectors with no id field. -/
theorem c2_empty_id_counterexample :
    opMessages (stopConnector (Commander.make "gw" "user" "sess") (some "cloud") (some "") none) =
      .ok [stringifyJson (Json.obj [("category", Json.str "cloud"),
        ("action", Json.str "stop_all_connectors")])] ∧
    (stopConnector (Commander.make "gw" "user" "sess") (some "cloud") (some "") none).sent.map
        Publish.message ≠
      [stringifyJson (Json.obj [("category", Json.str "cloud"),
        ("action", Json.str "stop_connector"), ("id", Json.str "")])] :=
  ⟨rfl, by decide⟩

/-- Claim C3 (amended: for stopConnector, startConnector and
restartConnector the guarantee holds only when the id argument is not the
literal all, because an id of all short-circuits category validation): a
category outside cloud, device, all, undefined makes each
connector-targeting operation fail with InvalidArgument naming the bad
category, with nothing published and the state unchanged; listConnectors
needs no id proviso. -/
theorem c3_invalid_category_rejected (c : Commander) (category id requestId : Option String)
    (h1 : category ≠ none) (h2 : category ≠ some "cloud") (h3 : category ≠ some "device")
    (h4 : category ≠ some "all") (h5 : id ≠ some "all") :
    stopConnector c category id requestId =
      { comm := c, sent := [], err := some (.invalidArgument (categoryMsg category)) } ∧
    startConnector c category id requestId =
      { comm := c, sent := [], err := some (.invalidArgument (categoryMsg category)) } ∧
    restartConnector c category id requestId =
      { comm := c, sent := [], err := some (.invalidArgument (categoryMsg category)) } ∧
    listConnectors c category requestId =
      { comm := c, sent := [], err := some (.invalidArgument (categoryMsg category)) } := by
  have hcc : ∀ actAll actOne, connectorCommand actAll actOne c category id requestId =
      { comm := c, sent := [], err := some (.invalidArgument (categoryMsg category)) } := by
    intro actAll actOne
    unfold connectorCommand
    rw [if_neg h4, if_neg h5, if_neg (by simp [h2, h3])]
    rfl
  refine ⟨hcc _ _, hcc _ _, hcc _ _, ?_⟩
  unfold listConnectors
  rw [if_pos ⟨h1, h2, h3⟩]
  rfl

/-- Witness for C3 at a concrete bad category. -/
theorem c3_invalid_category_witness :
    stopConnector (Commander.make "gw" "user" "sess") (some "bogus") (some "c1") none =
      { comm := Commander.make "gw" "user" "sess", sent := [],
        err := some (.invalidArgument (categoryMsg (some "bogus"))) } :=
  (c3_invalid_category_rejected (Commander.make "gw" "user" "sess") (some "bogus") (some "c1")
    none (by decide) (by decide) (by decide) (by decide) (by decide)).1

/-- Counterexample to C3 as frozen: an invalid category together with the
id all is NOT rejected; the call publishes a fleet-wide stop. -/
theorem c3_all_id_bypasses_validation :
    (stopConnector (Commander.make "gw" "user" "sess") (some "bogus") (some "all") none).err =
      none ∧
    (stopConnector (Commander.make "gw" "user" "sess") (some "bogus") (some "all") none).sent ≠
      [] :=
  ⟨rfl, by decide⟩

/-- Claim C4: from a fresh Commander the request id generator returns the
distinct strings sessionId::1 .. sessionId::k in order, and the n-th
publish issued without an explicit request id goes out on the topic
cloud/username/gateway/sessionId::n. -/
theorem c4_request_id_sequence (gateway username sessionId : String) (k : Nat)
    (ps : List String) (n : Nat) (h : n < ps.length) :
    nextRequestIds (Commander.make gateway username sessionId) k =
      (List.range k).map (fun i => sessionId ++ "::" ++ natString (i + 1)) ∧
    (nextRequestIds (Commander.make gateway username sessionId) k).Nodup ∧
    ((runSends (Commander.make gateway username sessionId) ps).2.map Publish.topic)[n]? =
      some ("cloud/" ++ username ++ "/" ++ gateway ++ "/" ++
        (sessionId ++ "::" ++ natString (n + 1))) := by
  have hids : nextRequestIds (Commander.make gateway username sessionId) k =
      (List.range k).map (fun i => sessionId ++ "::" ++ natString (i + 1)) := by
    rw [nextRequestIds_eq]
    refine congrArg (fun f => List.map f (List.range k)) (funext fun i => ?_)
    show sessionId ++ "::" ++ natString (0 + i + 1) = sessionId ++ "::" ++ natString (i + 1)
    rw [Nat.zero_add]
  refine ⟨hids, ?_, ?_⟩
  · rw [hids]
    exact (List.nodup_range k).map (requestId_inj sessionId)
  · rw [runSends_topics, List.getElem?_map, List.getElem?_range h]
    show some ((Commander.make gateway username sessionId).topicBase ++
      ((Commander.make gateway username sessionId).sessionId ++ "::" ++
        natString ((Commander.make gateway username sessionId).requestCounter + n + 1))) =
      some ("cloud/" ++ username ++ "/" ++ gateway ++ "/" ++
        (sessionId ++ "::" ++ natString (n + 1)))
    have hz : (Commander.make gateway username sessionId).requestCounter + n + 1 = n + 1 := by
      show 0 + n + 1 = n + 1
      omega
    rw [hz]
    rfl

/-- Witness for C4 at concrete inputs. -/
theorem c4_request_id_sequence_witness :
    ((runSends (Commander.make "gw" "user" "sess") ["p1", "p2"]).2.map Publish.topic)[1]? =
      some ("cloud/" ++ "user" ++ "/" ++ "gw" ++ "/" ++ ("sess" ++ "::" ++ natString 2)) :=
  (c4_request_id_sequence "gw" "user" "sess" 3 ["p1", "p2"] 1 (by decide)).2.2

/-- Claim C5 (amended: the config string must be wrapped in one leading
and one trailing quote character, as the operator supplies it, because
updateConnectorConfig strips the first and last character before parsing):
for every object O, passing the quote-wrapped JSON.stringify of O through
updateConnectorConfig publishes a config field deep-equal to O. -/
theorem c5_config_roundtrip (c : Commander) (O : Json) (cat i : String)
    (rid : Option String) (hcat : cat = "cloud" ∨ cat = "device") (hi : i ≠ "") :
    opMessages (updateConnectorConfig c (some cat) (some i)
        (.str (squote ++ stringifyJson O ++ squote)) rid) =
      .ok [stringifyJson (Json.obj [("action", Json.str "update_config"),
        ("category", Json.str cat), ("id", Json.str i), ("config", O)])] := by
  unfold updateConnectorConfig
  simp only []
  rw [if_pos hcat, if_neg hi, jsStripEnds_wrap, jsonParse_stringify]
  exact opMessages_opSend _ _ _

/-- Witness for C5 at a concrete object. -/
theorem c5_config_roundtrip_witness :
    opMessages (updateConnectorConfig (Commander.make "gw" "user" "sess") (some "cloud")
        (some "c1")
        (.str (squote ++ stringifyJson (Json.obj [("a", Json.num 1)]) ++ squote)) none) =
      .ok [stringifyJson (Json.obj [("action", Json.str "update_config"),
        ("category", Json.str "cloud"), ("id", Json.str "c1"),
        ("config", Json.obj [("a", Json.num 1)])])] :=
  c5_config_roundtrip (Commander.make "gw" "user" "sess") (Json.obj [("a", Json.num 1)])
    "cloud" "c1" none (Or.inl rfl) (by decide)

/-- Counterexample to C5 as frozen: passing JSON.stringify of an object
DIRECTLY (no quote wrapping) strips the outer braces instead of quotes, the
parse fails, and nothing is published. -/
theorem c5_unquoted_stringify_fails :
    (updateConnectorConfig (Commander.make "gw" "user" "sess") (some "cloud") (some "c1")
        (.str (stringifyJson (Json.obj [("a", Json.num 1)]))) none).sent = [] ∧
    (updateConnectorConfig (Commander.make "gw" "user" "sess") (some "cloud") (some "c1")
        (.str (stringifyJson (Json.obj [("a", Json.num 1)]))) none).err =
      some (.configParseError
        ("Error parsing configuration: [" ++ "Unexpected trailing characters in JSON text" ++ "]")) :=
  ⟨rfl, rfl⟩

/-- Claim C6: a string config whose quote-stripped text is not valid JSON
makes updateConnectorConfig fail with a ConfigParseError carrying the
parser message, with nothing published and the Commander state unchanged. -/
theorem c6_parse_failure_no_publish (c : Commander) (cat i s : String) (rid : Option String)
    (e : String) (hcat : cat = "cloud" ∨ cat = "device") (hi : i ≠ "")
    (hparse : jsonParse (jsStripEnds s) = .error e) :
    updateConnectorConfig c (some cat) (some i) (.str s) rid =
      { comm := c, sent := [],
        err := some (.configParseError ("Error parsing configuration: [" ++ e ++ "]")) } := by
  unfold updateConnectorConfig
  simp only []
  rw [if_pos hcat, if_neg hi, hparse]
  rfl

/-- Witness for C6 at a concrete malformed config string. -/
theorem c6_parse_failure_witness :
    updateConnectorConfig (Commander.make "gw" "user" "sess") (some "device") (some "c1")
        (.str "not json") none =
      { comm := Commander.make "gw" "user" "sess", sent := [],
        err := some (.configParseError
          ("Error parsing configuration: [" ++ "Unexpected token in JSON text" ++ "]")) } :=
  c6_parse_failure_no_publish (Commander.make "gw" "user" "sess") "device" "c1" "not json"
    none "Unexpected token in JSON text" (Or.inr rfl) (by decide) (by rfl)

/-- Claim C7 (amended: only a string of length at least two is stripped of
one leading and one trailing character; a one-character string is replaced
by the literal two-character brace text): with a valid category and a
non-empty id, sendDataToConnector publishes the data field predicted by
specSendDataField, written from the claim text. -/
theorem c7_send_data_normalization (c : Commander) (cat i : String) (rid : Option String)
    (d : JsArg) (t : String) (hcat : cat = "cloud" ∨ cat = "device") (hi : i ≠ "")
    (hd : specSendDataField d = some t) :
    opMessages (sendDataToConnector c (some cat) (some i) d rid) =
      .ok [stringifyJson (Json.obj [("action", Json.str "send_data"),
        ("category", Json.str cat), ("id", Json.str i), ("data", Json.str t)])] := by
  unfold sendDataToConnector
  simp only []
  rw [if_pos hcat, if_neg hi]
  cases d with
  | str sarg =>
    by_cases hlen : sarg.length ≥ 2
    · rw [show specSendDataField (.str sarg) =
          some (String.mk ((sarg.data.drop 1).dropLast)) from by
        simp only [specSendDataField]; rw [if_pos hlen]] at hd
      cases hd
      simp only [if_pos hlen]
      exact opMessages_opSend _ _ _
    · by_cases hemp : sarg = ""
      · rw [show specSendDataField (.str sarg) = some "" from by
          simp only [specSendDataField]; rw [if_neg hlen, if_pos hemp]] at hd
        cases hd
        simp only [if_neg hlen, if_pos hemp]
        exact opMessages_opSend _ _ _
      · rw [show specSendDataField (.str sarg) = none from by
          simp only [specSendDataField]; rw [if_neg hlen, if_neg hemp]] at hd
        cases hd
  | undef =>
    cases hd
    exact opMessages_opSend _ _ _
  | null =>
    cases hd
    exact opMessages_opSend _ _ _
  | bool b => cases hd
  | num n => cases hd
  | obj j =>
    cases hd
    exact opMessages_opSend _ _ _

/-- Witness for C7 at a concrete two-character string. -/
theorem c7_send_data_witness :
    opMessages (sendDataToConnector (Commander.make "gw" "user" "sess") (some "device")
        (some "gw1") (.str "ab") none) =
      .ok [stringifyJson (Json.obj [("action", Json.str "send_data"),
        ("category", Json.str "device"), ("id", Json.str "gw1"),
        ("data", Json.str "")])] :=
  c7_send_data_normalization (Commander.make "gw" "user" "sess") "device" "gw1" none
    (.str "ab") "" (Or.inr rfl) (by decide) (by rfl)

/-- Counterexample to C7 as frozen: a ONE-character string is not stripped
to the empty string; the source falls through to the final branch and
publishes the literal brace text. -/
theorem c7_one_char_string_counterexample :
    opMessages (sendDataToConnector (Commander.make "gw" "user" "sess") (some "device")
        (some "gw1") (.str "x") none) =
      .ok [stringifyJson (Json.obj [("action", Json.str "send_data"),
        ("category", Json.str "device"), ("id", Json.str "gw1"),
        ("data", Json.str "\x7b\x7d")])] ∧
    (sendDataToConnector (Commander.make "gw" "user" "sess") (some "device") (some "gw1")
        (.str "x") none).sent.map Publish.message ≠
      [stringifyJson (Json.obj [("action", Json.str "send_data"),
        ("category", Json.str "device"), ("id", Json.str "gw1"),
        ("data", Json.str "")])] :=
  ⟨rfl, by decide⟩

/-- Claim C8 is a code bug: the REPL tests tokens[0] for q but tokens[1]
(the SECOND token) for quit, and never tests exit or bye, so the lines
quit, exit and bye are reported as bad commands and the loop continues,
while any line whose second token is quit terminates the loop.  The
previous shell implementation in the repository terminates on exactly the
four first tokens the claim lists. -/
theorem c8_quit_token_behavior :
    replStep ["quit"] = ReplOutcome.badCommand ∧
    replStep ["exit"] = ReplOutcome.badCommand ∧
    replStep ["bye"] = ReplOutcome.badCommand ∧
    replStep ["q"] = ReplOutcome.quit ∧
    replStep ["con:list", "quit"] = ReplOutcome.quit :=
  ⟨rfl, rfl, rfl, rfl, rfl⟩

/-- Claim C9 (amended: the empty partial returns the cached result of the
most recent non-empty query, which is empty only at session start, because
the closure returns its matches array unrefreshed): a non-empty partial
returns exactly the registered command names containing it as a substring,
and the empty partial returns the cache unchanged. -/
theorem c9_tab_complete_matches (cached : List String) (frag cmd : String) (h : frag ≠ "") :
    (cmd ∈ (tabCompleteStep cached frag).2 ↔
      cmd ∈ commandNames ∧ frag.data <:+: cmd.data) ∧
    tabCompleteStep cached "" = (cached, cached) := by
  constructor
  · rw [tabCompleteStep, if_neg h]
    simp [List.mem_filter]
  · rfl

/-- Witness for C9 at a concrete query. -/
theorem c9_tab_complete_witness :
    ("con:send_data" ∈ (tabCompleteStep ["stale"] "send").2 ↔
      "con:send_data" ∈ commandNames ∧ ("send".data <:+: "con:send_data".data)) :=
  (c9_tab_complete_matches ["stale"] "send" "con:send_data" (by decide)).1

/-- Counterexample to C9 as frozen: after a query for con:stop, a query
with the EMPTY partial returns the four cached stop commands, not the
empty set. -/
theorem c9_empty_query_returns_cache :
    (tabCompleteStep (tabCompleteStep [] "con:stop").1 "").2 =
      ["con:stop", "con:stop_all", "con:stop_cloud", "con:stop_device"] ∧
    (tabCompleteStep (tabCompleteStep [] "con:stop").1 "").2 ≠ [] :=
  ⟨by decide, by decide⟩

/-- Claim C10 is a code bug: sysInfo (like resetAgent) documents an
optional requestId parameter but its implementation neither declares nor
forwards one, so a caller-supplied request id is dropped: the inner
sendDataToConnector call advances the session counter and publishes on a
freshly generated request-id topic.  Operations that do take the
parameter, such as stopConnector, leave the counter unchanged and use the
supplied id verbatim. -/
theorem c10_sysinfo_drops_request_id :
    (sysInfo (Commander.make "gw1" "user1" "sess1") (some "gw1")).comm.requestCounter = 1 ∧
    (sysInfo (Commander.make "gw1" "user1" "sess1") (some "gw1")).sent.map Publish.topic =
      ["cloud/user1/gw1/" ++ ("sess1" ++ "::" ++ natString 1)] ∧
    (stopConnector (Commander.make "gw1" "user1" "sess1") (some "cloud") (some "c1")
        (some "custom-id")).comm.requestCounter = 0 ∧
    (stopConnector (Commander.make "gw1" "user1" "sess1") (some "cloud") (some "c1")
        (some "custom-id")).sent.map Publish.topic = ["cloud/user1/gw1/custom-id"] :=
  ⟨rfl, rfl, rfl, rfl⟩
